import Mathlib

/-!
Verification of the geo-filtered job matching and analytics subsystem of
the Local-Job-Connect backend (src/backend/app.py), shallowly embedded in
Lean.  Machine floats are modelled as exact real (geometry, search) or
rational (analytics) arithmetic; the external geocoding call is modelled
by an explicit response value; database rows are lists of records.
-/

namespace LocalJobConnect

/-! ## Geocoder -/

/-- One candidate feature of the geocoding response: the coordinate pair of
its geometry.  The provider stores coordinates as [longitude, latitude]
and the source reads coordinates[0] as longitude, coordinates[1] as
latitude. -/
structure Feature where
  lon : ℝ
  lat : ℝ

/-- Outcome of the HTTP request made inside geocode_address: either a parsed
body carrying a (possibly empty) features list, or any transport or parsing
failure (everything caught by the except branch in the source). -/
inductive GeoResponse where
  | ok (features : List Feature)
  | failure

/-- Embedding of geocode_address: on a response with at least one feature it
returns the first candidate as (latitude, longitude); on an empty feature
list or on failure it returns (None, None). -/
def geocode_address : GeoResponse → Option ℝ × Option ℝ
  | .ok [] => (none, none)
  | .ok (f :: _) => (some f.lat, some f.lon)
  | .failure => (none, none)

/-! ## Distance engine -/

/-- Mean Earth radius in kilometres, the sphere radius of the great-circle
model of geopy geodesic distance. -/
noncomputable def earthRadiusKm : ℝ := 6371.0088

/-- Degrees to radians. -/
noncomputable def toRad (d : ℝ) : ℝ := d * (Real.pi / 180)

/-- Embedding of calculate_distance: distance in kilometres between two
latitude/longitude pairs.  The source delegates to geopy geodesic; the spec
(section 4.2) allows an ellipsoidal or spherical great-circle distance, and
the embedding uses the spherical one, R * arccos of the central angle
cosine. -/
noncomputable def calculate_distance (lat1 lon1 lat2 lon2 : ℝ) : ℝ :=
  earthRadiusKm * Real.arccos
    (Real.sin (toRad lat1) * Real.sin (toRad lat2) +
      Real.cos (toRad lat1) * Real.cos (toRad lat2) * Real.cos (toRad lon1 - toRad lon2))

/-- The service-area configuration (SERVICE_AREA_CENTER_LAT,
SERVICE_AREA_CENTER_LNG, SERVICE_AREA_RADIUS_KM), read from the environment
and passed explicitly, following section 9 of the spec. -/
structure ServiceArea where
  center_lat : ℝ
  center_lng : ℝ
  max_radius : ℝ

/-- Embedding of is_within_service_area: distance from the configured centre
compared against the configured radius, boundary inclusive. -/
noncomputable def is_within_service_area (cfg : ServiceArea) (lat lng : ℝ) : Bool :=
  decide (calculate_distance cfg.center_lat cfg.center_lng lat lng ≤ cfg.max_radius)

/-! ## Registration and job creation -/

structure RegForm where
  email : String
  password : String
  confirm_password : String
  role : String
  full_name : String
  phone : String
  address : String
  city : String
  zip_code : String

inductive RegisterError where
  | passwordMismatch
  | passwordTooShort
  | emailTaken
  | addressUnverified

structure UserRec where
  email : String
  role : String
  full_name : String
  phone : String
  address : String
  city : String
  zip_code : String
  latitude : ℝ
  longitude : ℝ

/-- Embedding of the POST branch of register: the validations in source
order, then the geocoding guard (the Python test `if not lat or not lng`
treats the float 0.0 exactly like None, hence the disjunction with 0), then
the persisted user. -/
noncomputable def register (existingEmails : List String) (form : RegForm)
    (geo : GeoResponse) : Except RegisterError UserRec :=
  if form.password ≠ form.confirm_password then .error .passwordMismatch
  else if form.password.length < 8 then .error .passwordTooShort
  else if form.email ∈ existingEmails then .error .emailTaken
  else
    match geocode_address geo with
    | (some lat, some lng) =>
      if lat = 0 ∨ lng = 0 then .error .addressUnverified
      else .ok { email := form.email, role := form.role, full_name := form.full_name,
                 phone := form.phone, address := form.address, city := form.city,
                 zip_code := form.zip_code, latitude := lat, longitude := lng }
    | _ => .error .addressUnverified

structure JobForm where
  title : String
  description : String
  category : String
  employment_type : String
  salary_min : Option ℝ
  salary_max : Option ℝ
  street_address : String
  city : String
  zip_code : String

inductive CreateJobError where
  | addressUnverified
  | outsideServiceArea

structure JobPostingRec where
  employer_id : ℕ
  title : String
  description : String
  category : String
  employment_type : String
  salary_min : Option ℝ
  salary_max : Option ℝ
  street_address : String
  city : String
  zip_code : String
  latitude : ℝ
  longitude : ℝ
  status : String

/-- Embedding of the POST branch of create_job: geocode the form address,
reject on falsy coordinates (None, or the float 0.0 which Python treats as
falsy), reject when outside the service area, otherwise build the posting
with the status column default "active". -/
noncomputable def create_job (cfg : ServiceArea) (employer_id : ℕ) (form : JobForm)
    (geo : GeoResponse) : Except CreateJobError JobPostingRec :=
  match geocode_address geo with
  | (some lat, some lng) =>
    if lat = 0 ∨ lng = 0 then .error .addressUnverified
    else if is_within_service_area cfg lat lng then
      .ok { employer_id := employer_id, title := form.title,
            description := form.description, category := form.category,
            employment_type := form.employment_type, salary_min := form.salary_min,
            salary_max := form.salary_max, street_address := form.street_address,
            city := form.city, zip_code := form.zip_code, latitude := lat,
            longitude := lng, status := "active" }
    else .error .outsideServiceArea
  | _ => .error .addressUnverified

/-! ## Job search -/

structure JobRow where
  id : ℕ
  title : String
  description : String
  category : String
  latitude : ℝ
  longitude : ℝ
  status : String

/-- One element of jobs_with_distance: a job together with the distance
value stored for display, which the source rounds to 2 decimals. -/
structure SearchEntry where
  job : JobRow
  distance : ℝ

/-- The Python built-in round to the nearest integer, which uses round half
to even, applied to the exact value of the argument (the float is modelled
as a real). -/
noncomputable def pyRound (x : ℝ) : ℤ :=
  if Int.fract x = 1/2 then (if ⌊x⌋ % 2 = 0 then ⌊x⌋ else ⌊x⌋ + 1) else round x

/-- The Python call round(x, 2). -/
noncomputable def round2 (x : ℝ) : ℝ := (pyRound (100 * x) : ℝ) / 100

/-- Bool test that pat occurs as a contiguous run inside hay. -/
def containsSub (pat : List Char) : List Char → Bool
  | [] => pat.isPrefixOf []
  | c :: t => pat.isPrefixOf (c :: t) || containsSub pat t

/-- Case-insensitive substring test, embedding the SQL pattern
ilike with the keyword wrapped in percent wildcards (for keywords that are
wildcard-free). -/
def ilikeContains (hay pat : String) : Bool :=
  containsSub pat.toLower.toList hay.toLower.toList

/-- The candidate list built by search_jobs before the final sort: the
active-status filter, then the keyword and category filters (Python applies
each only when the string is non-empty, since the empty string is falsy),
then one pass computing the distance of each remaining job and keeping
(job, round(distance, 2)) exactly when the unrounded distance is at most
the radius. -/
noncomputable def search_pre (seeker_lat seeker_lng : ℝ) (keyword category : String)
    (radius : ℝ) (jobs : List JobRow) : List SearchEntry :=
  let active := jobs.filter (fun j => decide (j.status = "active"))
  let kwFiltered := if keyword ≠ "" then
      active.filter (fun j => ilikeContains j.title keyword || ilikeContains j.description keyword)
    else active
  let catFiltered := if category ≠ "" then
      kwFiltered.filter (fun j => decide (j.category = category))
    else kwFiltered
  catFiltered.filterMap (fun j =>
    let d := calculate_distance seeker_lat seeker_lng j.latitude j.longitude
    if d ≤ radius then some { job := j, distance := round2 d } else none)

/-- Embedding of search_jobs: the candidate list sorted ascending by the
stored distance.  The Python list sort is stable, embedded as mergeSort. -/
noncomputable def search_jobs (seeker_lat seeker_lng : ℝ) (keyword category : String)
    (radius : ℝ) (jobs : List JobRow) : List SearchEntry :=
  (search_pre seeker_lat seeker_lng keyword category radius jobs).mergeSort
    (fun a b => decide (a.distance ≤ b.distance))

/-! ## Job posting lifecycle -/

/-- Embedding of toggle_job_status on the status column: active and paused
swap; any other status (in particular archived) falls through both branches
unchanged. -/
def toggle_job_status (s : String) : String :=
  if s = "active" then "paused" else if s = "paused" then "active" else s

/-- Embedding of archive_job on the status column: unconditionally sets
archived. -/
def archive_job (_s : String) : String := "archived"

/-- The operations an employer can run against a posting that could touch
the status column.  The edit operation is edit_job, which writes title,
description, category, employment type and salaries but never the status. -/
inductive JobOp where
  | toggle
  | archive
  | edit

def applyOp (s : String) : JobOp → String
  | .toggle => toggle_job_status s
  | .archive => archive_job s
  | .edit => s

/-- Run a sequence of lifecycle operations against a starting status. -/
def runOps (s : String) (ops : List JobOp) : String := ops.foldl applyOp s

/-! ## Analytics -/

/-- The Python built-in round on an exact rational value: round half to
even.  Computable twin of pyRound, used on the analytics side where all
quantities are rational. -/
def pyRoundQ (x : ℚ) : ℤ :=
  if Int.fract x = 1/2 then (if ⌊x⌋ % 2 = 0 then ⌊x⌋ else ⌊x⌋ + 1) else round x

/-- The Python call round(x, 1). -/
def round1q (x : ℚ) : ℚ := (pyRoundQ (10 * x) : ℚ) / 10

/-- An application row as the analytics view reads it: the status string and
the submitted_at / updated_at timestamps, in whole seconds. -/
structure ApplicationRec where
  status : String
  submitted_at : ℤ
  updated_at : ℤ

/-- The Python value (updated_at - submitted_at).days on a timedelta: floor
division of the signed difference in seconds by 86400. -/
def responseDays (a : ApplicationRec) : ℤ := (a.updated_at - a.submitted_at).fdiv 86400

/-- The analytics values handed to the template that the claims are about.
Monthly buckets, status buckets and job popularity are computed by the same
route but are not touched by any claim and are omitted from this record. -/
structure AnalyticsSnapshot where
  total_applications : ℕ
  acceptance_rate : ℚ
  interview_rate : ℚ
  rejection_rate : ℚ
  response_rate : ℚ
  avg_response_time : ℚ

/-- Embedding of the analytics route over the list of the applications
belonging to the employer (total_apps in the source): each rate is
count/total*100 guarded by the truthiness test on the total, the average
response time is the mean of the day differences of the applications whose
status moved away from applied, and every field is rounded to one decimal
in the render call exactly as in the source. -/
def analytics (apps : List ApplicationRec) : AnalyticsSnapshot :=
  let total := apps.length
  let accepted := (apps.filter (fun a => decide (a.status = "accepted"))).length
  let acceptance_rate : ℚ := if total ≠ 0 then (accepted : ℚ) / (total : ℚ) * 100 else 0
  let interviews := (apps.filter (fun a => decide (a.status = "interview"))).length
  let interview_rate : ℚ := if total ≠ 0 then (interviews : ℚ) / (total : ℚ) * 100 else 0
  let rejected := (apps.filter (fun a => decide (a.status = "rejected"))).length
  let rejection_rate : ℚ := if total ≠ 0 then (rejected : ℚ) / (total : ℚ) * 100 else 0
  let responded := (apps.filter (fun a => decide (a.status ≠ "applied"))).length
  let response_rate : ℚ := if total ≠ 0 then (responded : ℚ) / (total : ℚ) * 100 else 0
  let response_times := (apps.filter (fun a => decide (a.status ≠ "applied"))).map
    (fun a => (responseDays a : ℚ))
  let avg_response_time : ℚ :=
    if response_times.length ≠ 0 then response_times.sum / (response_times.length : ℚ) else 0
  { total_applications := total,
    acceptance_rate := round1q acceptance_rate,
    interview_rate := round1q interview_rate,
    rejection_rate := round1q rejection_rate,
    response_rate := round1q response_rate,
    avg_response_time := round1q avg_response_time }

/-- The rate formula as the spec states it: count of the given status over
the total count, times 100, rounded to one decimal, and 0 when the employer
has no applications. -/
def specRate (apps : List ApplicationRec) (s : String) : ℚ :=
  if apps.length = 0 then 0
  else round1q (((apps.filter (fun a => decide (a.status = s))).length : ℚ)
    / (apps.length : ℚ) * 100)

/-- The response-rate formula as the spec states it: count of applications
whose status is not applied over the total count, times 100, rounded to one
decimal, 0 when there are no applications. -/
def specResponseRate (apps : List ApplicationRec) : ℚ :=
  if apps.length = 0 then 0
  else round1q (((apps.filter (fun a => decide (a.status ≠ "applied"))).length : ℚ)
    / (apps.length : ℚ) * 100)

/-- The exact (unrounded) mean the spec describes for avgResponseTimeDays:
mean of (updated_at - submitted_at) in days over the applications whose
status is not applied, and 0 when no such application exists. -/
def specMeanResponseDays (apps : List ApplicationRec) : ℚ :=
  let ds := (apps.filter (fun a => decide (a.status ≠ "applied"))).map
    (fun a => (responseDays a : ℚ))
  if ds.length = 0 then 0 else ds.sum / (ds.length : ℚ)

/-- The scenario of the spec: 10 applications, 3 accepted, 2 interview,
1 rejected, 4 applied. -/
def scenarioTen : List ApplicationRec :=
  [⟨"accepted", 0, 0⟩, ⟨"accepted", 0, 0⟩, ⟨"accepted", 0, 0⟩,
   ⟨"interview", 0, 0⟩, ⟨"interview", 0, 0⟩,
   ⟨"rejected", 0, 0⟩,
   ⟨"applied", 0, 0⟩, ⟨"applied", 0, 0⟩, ⟨"applied", 0, 0⟩, ⟨"applied", 0, 0⟩]

/-! ## Helper lemmas -/

lemma calculate_distance_self (a o : ℝ) : calculate_distance a o a o = 0 := by
  unfold calculate_distance
  rw [sub_self, Real.cos_zero, mul_one]
  have h : Real.sin (toRad a) * Real.sin (toRad a) +
      Real.cos (toRad a) * Real.cos (toRad a) = 1 := by
    have hpyth := Real.sin_sq_add_cos_sq (toRad a)
    nlinarith [hpyth]
  rw [h, Real.arccos_one, mul_zero]

lemma toRad_ninety : toRad 90 = Real.pi / 2 := by
  unfold toRad; ring

lemma toRad_zero : toRad 0 = 0 := by
  unfold toRad; ring

lemma dist_origin_pole : calculate_distance 0 0 90 90 = earthRadiusKm * (Real.pi / 2) := by
  unfold calculate_distance
  rw [toRad_zero, toRad_ninety, Real.sin_zero, Real.cos_pi_div_two]
  norm_num [Real.arccos_zero]

/-! Claim theorems -/

/-- C4: when the geocoding provider returns an empty candidate list, or the
request fails in transport or parsing, geocode_address returns the
unresolved value (no coordinates); being a total function of the response,
it never raises to its caller. -/
theorem geocode_address_unresolved :
    geocode_address (GeoResponse.ok []) = (none, none) ∧
    geocode_address GeoResponse.failure = (none, none) :=
  ⟨rfl, rfl⟩

lemma applyOp_archived (op : JobOp) : applyOp "archived" op = "archived" := by
  cases op <;> simp +decide [applyOp, toggle_job_status, archive_job]

lemma applyOp_mem (s : String) (op : JobOp)
    (h : s = "active" ∨ s = "paused" ∨ s = "archived") :
    applyOp s op = "active" ∨ applyOp s op = "paused" ∨ applyOp s op = "archived" := by
  rcases h with h | h | h <;> subst h <;> cases op <;> decide

/-- C8: starting from the creation default status "active", any sequence of
status toggles, archives and edits keeps the status inside
{active, paused, archived}; and from "archived" every such sequence leaves
the status "archived": archived is a one-way ratchet. -/
theorem archived_status_ratchet :
    (∀ ops : List JobOp, runOps "archived" ops = "archived") ∧
    (∀ ops : List JobOp, runOps "active" ops = "active" ∨ runOps "active" ops = "paused" ∨
      runOps "active" ops = "archived") := by
  constructor
  · intro ops
    induction ops with
    | nil => rfl
    | cons op t ih =>
      show List.foldl applyOp (applyOp "archived" op) t = "archived"
      rw [applyOp_archived]
      exact ih
  · have hmem : ∀ (ops : List JobOp) (s : String),
        s = "active" ∨ s = "paused" ∨ s = "archived" →
        runOps s ops = "active" ∨ runOps s ops = "paused" ∨ runOps s ops = "archived" := by
      intro ops
      induction ops with
      | nil => intro s h; exact h
      | cons op t ih =>
        intro s h
        show runOps (applyOp s op) t = "active" ∨ runOps (applyOp s op) t = "paused" ∨
          runOps (applyOp s op) t = "archived"
        exact ih _ (applyOp_mem s op h)
    intro ops
    exact hmem ops "active" (Or.inl rfl)

/-- C9 (amended): calculate_distance is symmetric and vanishes on the
diagonal; the converse (zero only at equal coordinate pairs) fails, see the
counterexample at the pole. -/
theorem distance_symm_and_self_zero (a₁ o₁ a₂ o₂ : ℝ) :
    calculate_distance a₁ o₁ a₂ o₂ = calculate_distance a₂ o₂ a₁ o₁ ∧
    calculate_distance a₁ o₁ a₁ o₁ = 0 := by
  constructor
  · unfold calculate_distance
    have h : toRad o₂ - toRad o₁ = -(toRad o₁ - toRad o₂) := by ring
    rw [h, Real.cos_neg]
    ring_nf
  · exact calculate_distance_self a₁ o₁

/-- C9 counterexample: the two distinct coordinate pairs (90, 0) and
(90, 90) — both at the north pole — are at calculate_distance 0, so
distance zero does not imply equal locations. -/
theorem distance_zero_at_distinct_points :
    calculate_distance 90 0 90 90 = 0 ∧
    ¬ (((90 : ℝ), (0 : ℝ)) = ((90 : ℝ), (90 : ℝ))) := by
  constructor
  · unfold calculate_distance
    rw [toRad_ninety, Real.sin_pi_div_two, Real.cos_pi_div_two]
    norm_num [Real.arccos_one]
  · intro h
    have h2 := congrArg Prod.snd h
    norm_num at h2

/-- C1: every entry of the search result corresponds to a job whose computed
distance from the seeker is at most the radius (candidates beyond the
radius are dropped before the result is built), and the stored distance of
the entry is that computed distance rounded to 2 decimals for display. -/
theorem search_jobs_within_radius (slat slng : ℝ) (kw cat : String) (r : ℝ)
    (jobs : List JobRow) (e : SearchEntry) (_hr : 0 ≤ r)
    (he : e ∈ search_jobs slat slng kw cat r jobs) :
    calculate_distance slat slng e.job.latitude e.job.longitude ≤ r ∧
    e.distance = round2 (calculate_distance slat slng e.job.latitude e.job.longitude) := by
  unfold search_jobs at he
  rw [List.mem_mergeSort] at he
  simp only [search_pre, List.mem_filterMap] at he
  obtain ⟨j, hj, hfe⟩ := he
  by_cases hd : calculate_distance slat slng j.latitude j.longitude ≤ r
  · rw [if_pos hd] at hfe
    injection hfe with h
    subst h
    exact ⟨hd, rfl⟩
  · rw [if_neg hd] at hfe
    cases hfe

def wJob : JobRow :=
  { id := 1, title := "Cook", description := "Prepare meals", category := "Hospitality",
    latitude := 10, longitude := 20, status := "active" }

noncomputable def wEntry : SearchEntry := { job := wJob, distance := round2 0 }

lemma search_single_eval : search_jobs 10 20 "" "" 5 [wJob] = [wEntry] := by
  unfold search_jobs search_pre
  norm_num +decide [wJob, wEntry, calculate_distance_self, List.filterMap_cons,
    List.filterMap_nil]

theorem search_jobs_within_radius_witness :
    calculate_distance 10 20 wEntry.job.latitude wEntry.job.longitude ≤ 5 ∧
    wEntry.distance = round2 (calculate_distance 10 20 wEntry.job.latitude wEntry.job.longitude) :=
  search_jobs_within_radius 10 20 "" "" 5 [wJob] wEntry (by norm_num)
    (by rw [search_single_eval]; exact List.mem_singleton.mpr rfl)

/-- C2: the search result is sorted in non-decreasing order of stored
distance, and entries of equal distance keep the relative order they had in
the candidate list before sorting (the sort is stable), expressed by
filtering both lists at each distance value. -/
theorem search_jobs_sorted_and_stable (slat slng : ℝ) (kw cat : String) (r : ℝ)
    (jobs : List JobRow) :
    (search_jobs slat slng kw cat r jobs).Pairwise (fun a b => a.distance ≤ b.distance) ∧
    ∀ q : ℝ,
      (search_jobs slat slng kw cat r jobs).filter (fun e => decide (e.distance = q)) =
        (search_pre slat slng kw cat r jobs).filter (fun e => decide (e.distance = q)) := by
  have htrans : ∀ a b c : SearchEntry, decide (a.distance ≤ b.distance) = true →
      decide (b.distance ≤ c.distance) = true → decide (a.distance ≤ c.distance) = true := by
    intro a b c hab hbc
    simp only [decide_eq_true_eq] at *
    exact le_trans hab hbc
  have htotal : ∀ a b : SearchEntry,
      (decide (a.distance ≤ b.distance) || decide (b.distance ≤ a.distance)) = true := by
    intro a b
    simp only [Bool.or_eq_true, decide_eq_true_eq]
    exact le_total a.distance b.distance
  constructor
  · have h := List.sorted_mergeSort htrans htotal (search_pre slat slng kw cat r jobs)
    unfold search_jobs
    exact h.imp (by intro a b hab; simpa using hab)
  · intro q
    unfold search_jobs
    have hpw : ((search_pre slat slng kw cat r jobs).filter
        (fun e => decide (e.distance = q))).Pairwise
        (fun a b => decide (a.distance ≤ b.distance) = true) := by
      apply List.pairwise_of_forall_mem_list
      intro a ha b hb
      have ha2 := (List.mem_filter.mp ha).2
      have hb2 := (List.mem_filter.mp hb).2
      simp only [decide_eq_true_eq] at ha2 hb2 ⊢
      rw [ha2, hb2]
    have hsub : List.Sublist
        ((search_pre slat slng kw cat r jobs).filter (fun e => decide (e.distance = q)))
        (search_pre slat slng kw cat r jobs) :=
      List.filter_sublist _
    have h1 := List.sublist_mergeSort htrans htotal hpw hsub
    have h2 := h1.filter (fun e => decide (e.distance = q))
    have hself : ((search_pre slat slng kw cat r jobs).filter
          (fun e => decide (e.distance = q))).filter (fun e => decide (e.distance = q)) =
        (search_pre slat slng kw cat r jobs).filter (fun e => decide (e.distance = q)) :=
      List.filter_eq_self.mpr (fun a ha => (List.mem_filter.mp ha).2)
    rw [hself] at h2
    have hperm := (List.mergeSort_perm (search_pre slat slng kw cat r jobs)
      (fun a b => decide (a.distance ≤ b.distance))).filter
      (fun e => decide (e.distance = q))
    exact (h2.eq_of_length_le (le_of_eq hperm.length_eq)).symm

lemma round1q_zero : round1q 0 = 0 := by
  norm_num [round1q, pyRoundQ, Int.fract]

lemma pyRoundQ_le (x : ℚ) : (pyRoundQ x : ℚ) ≤ x + 1/2 := by
  unfold pyRoundQ
  split_ifs with h1 h2
  · have hfl := Int.floor_le x
    linarith
  · rw [Int.fract] at h1
    push_cast
    linarith
  · rw [round_eq]
    have hfl := Int.floor_le (x + 1/2)
    linarith

lemma pyRoundQ_tie_of_eq (x : ℚ) (h : (pyRoundQ x : ℚ) = x + 1/2) :
    Int.fract x = 1/2 ∧ ⌊x⌋ % 2 = 1 := by
  unfold pyRoundQ at h
  split_ifs at h with h1 h2
  · exfalso
    rw [Int.fract] at h1
    have hfl := Int.floor_le x
    linarith
  · exact ⟨h1, by omega⟩
  · exfalso
    apply h1
    have hx : x = (round x : ℚ) - 1/2 := by linarith
    have hfloor : ⌊(round x : ℚ) - 1/2⌋ = round x - 1 := by
      rw [show ((round x : ℚ) - 1/2) = (-(1/2) : ℚ) + (round x : ℤ) by ring,
        Int.floor_add_int]
      norm_num
      omega
    have hfl2 : ⌊x⌋ = round x - 1 := by
      conv_lhs => rw [hx]
      exact hfloor
    rw [Int.fract, hfl2]
    push_cast
    linarith

lemma pyRoundQ_pair (x y : ℚ) (hxy : x + y ≤ 1000) :
    (pyRoundQ x : ℚ) + (pyRoundQ y : ℚ) ≤ 1000 := by
  by_contra hcon
  push_neg at hcon
  have hle1 := pyRoundQ_le x
  have hle2 := pyRoundQ_le y
  have hint : (1001 : ℤ) ≤ pyRoundQ x + pyRoundQ y := by
    have hq : (1000 : ℚ) < ((pyRoundQ x + pyRoundQ y : ℤ) : ℚ) := by push_cast; linarith
    have hz : (1000 : ℤ) < pyRoundQ x + pyRoundQ y := by exact_mod_cast hq
    omega
  have hintq : (1001 : ℚ) ≤ (pyRoundQ x : ℚ) + (pyRoundQ y : ℚ) := by
    have := hint
    push_cast at this ⊢
    exact_mod_cast this
  have hx_eq : (pyRoundQ x : ℚ) = x + 1/2 := by linarith
  have hy_eq : (pyRoundQ y : ℚ) = y + 1/2 := by linarith
  obtain ⟨hfx, hox⟩ := pyRoundQ_tie_of_eq x hx_eq
  obtain ⟨hfy, hoy⟩ := pyRoundQ_tie_of_eq y hy_eq
  rw [Int.fract] at hfx hfy
  have hsum_le : ((⌊x⌋ : ℚ) + ⌊y⌋) ≤ 999 := by linarith
  have hsum_ge : ((⌊x⌋ : ℚ) + ⌊y⌋) ≥ 999 := by linarith
  have hsum : (⌊x⌋ + ⌊y⌋ : ℤ) = 999 := by exact_mod_cast le_antisymm hsum_le hsum_ge
  omega

lemma length_filter_add_length_filter_le {α : Type} (l : List α) (p q : α → Bool)
    (h : ∀ a, p a = true → q a = false) :
    (l.filter p).length + (l.filter q).length ≤ l.length := by
  induction l with
  | nil => simp
  | cons a t ih =>
    by_cases hp : p a = true
    · have hq := h a hp
      simp only [List.filter_cons, hp, hq, if_true, Bool.false_eq_true, if_false,
        List.length_cons]
      omega
    · rw [Bool.not_eq_true] at hp
      by_cases hq : q a = true
      · simp only [List.filter_cons, hp, hq, Bool.false_eq_true, if_false, if_true,
          List.length_cons]
        omega
      · rw [Bool.not_eq_true] at hq
        simp only [List.filter_cons, hp, hq, Bool.false_eq_true, if_false,
          List.length_cons]
        omega

/-- C3: each analytics rate equals count-of-that-status over total times
100, rounded to one decimal, and is 0 for an employer with no applications;
and on the employer scenario with 10 applications (3 accepted, 2 interview,
1 rejected, 4 applied) the rates are 30.0, 20.0, 10.0 and 60.0. -/
theorem analytics_rates_spec (apps : List ApplicationRec) :
    ((analytics apps).acceptance_rate = specRate apps "accepted" ∧
      (analytics apps).interview_rate = specRate apps "interview" ∧
      (analytics apps).rejection_rate = specRate apps "rejected" ∧
      (analytics apps).response_rate = specResponseRate apps) ∧
    ((analytics scenarioTen).acceptance_rate = 30 ∧
      (analytics scenarioTen).interview_rate = 20 ∧
      (analytics scenarioTen).rejection_rate = 10 ∧
      (analytics scenarioTen).response_rate = 60) := by
  constructor
  · by_cases h : apps.length = 0
    · refine ⟨?_, ?_, ?_, ?_⟩ <;>
        simp [analytics, specRate, specResponseRate, h, round1q_zero]
    · refine ⟨?_, ?_, ?_, ?_⟩ <;>
        simp [analytics, specRate, specResponseRate, h]
  · have h1 : (scenarioTen.filter (fun a => decide (a.status = "accepted"))).length = 3 := by
      decide
    have h2 : (scenarioTen.filter (fun a => decide (a.status = "interview"))).length = 2 := by
      decide
    have h3 : (scenarioTen.filter (fun a => decide (a.status = "rejected"))).length = 1 := by
      decide
    have h4 : (scenarioTen.filter (fun a => decide (a.status ≠ "applied"))).length = 6 := by
      decide
    have h5 : scenarioTen.length = 10 := by decide
    refine ⟨?_, ?_, ?_, ?_⟩ <;>
      simp only [analytics, h1, h2, h3, h4, h5] <;>
      norm_num [round1q, pyRoundQ, Int.fract, round_eq]

/-- C6 counterexample: three responded applications with day differences
1, 1 and 0 have exact mean 2/3 of a day, but the snapshot reports 0.7 (the
mean rounded to one decimal), so the snapshot field does not equal the
exact mean. -/
def cexApps : List ApplicationRec :=
  [⟨"interview", 0, 86400⟩, ⟨"interview", 0, 86400⟩, ⟨"interview", 0, 0⟩]

theorem avg_response_time_not_exact_mean :
    specMeanResponseDays cexApps = 2/3 ∧
    (analytics cexApps).avg_response_time = 7/10 ∧
    (analytics cexApps).avg_response_time ≠ specMeanResponseDays cexApps := by
  have h1 : specMeanResponseDays cexApps = 2/3 := by
    norm_num +decide [specMeanResponseDays, cexApps, responseDays, Int.fdiv]
  have h2 : (analytics cexApps).avg_response_time = 7/10 := by
    norm_num +decide [analytics, cexApps, responseDays, Int.fdiv, round1q, pyRoundQ,
      Int.fract, round_eq]
  exact ⟨h1, h2, by rw [h1, h2]; norm_num⟩

/-- C6 (amended): the avgResponseTimeDays field of the snapshot equals the
mean of (updated_at - submitted_at) in whole days over the applications
whose status is not applied — rounded to one decimal, as every snapshot
field is — and equals 0 when no such application exists. -/
theorem avg_response_time_is_rounded_mean (apps : List ApplicationRec) :
    (analytics apps).avg_response_time = round1q (specMeanResponseDays apps) := by
  simp only [analytics, specMeanResponseDays]
  by_cases h : ((apps.filter (fun a => decide (a.status ≠ "applied"))).map
      (fun a => (responseDays a : ℚ))).length = 0
  · rw [if_neg (not_not_intro h), if_pos h]
  · rw [if_pos h, if_neg h]

/-- C7: the rounded acceptance rate plus the rounded rejection rate is at
most 100.  In the embedding each application carries exactly one status
string, so it cannot be counted both as accepted and as rejected; the sum
of the exact rates is at most 100, and the round-half-to-even rule of the
Python built-in round cannot push the rounded sum past 100 (two ties that
both round up would need two odd integer parts adding to the odd number
999). -/
theorem rates_sum_le_hundred (apps : List ApplicationRec) :
    (analytics apps).acceptance_rate + (analytics apps).rejection_rate ≤ 100 := by
  have hdisj : ∀ a : ApplicationRec, decide (a.status = "accepted") = true →
      decide (a.status = "rejected") = false := by
    intro a ha
    rw [decide_eq_true_eq] at ha
    simp [ha]
  have hkj := length_filter_add_length_filter_le apps
    (fun a => decide (a.status = "accepted")) (fun a => decide (a.status = "rejected")) hdisj
  simp only [analytics]
  by_cases h : apps.length = 0
  · simp [h, round1q_zero]
  · rw [if_pos h, if_pos h]
    set n := apps.length with hn
    set k := (apps.filter (fun a => decide (a.status = "accepted"))).length with hk
    set j := (apps.filter (fun a => decide (a.status = "rejected"))).length with hj
    have hnpos : (0 : ℚ) < (n : ℚ) := by
      have := Nat.pos_of_ne_zero h
      exact_mod_cast this
    have hkjq : (k : ℚ) + (j : ℚ) ≤ (n : ℚ) := by exact_mod_cast hkj
    have hx : (k : ℚ) / (n : ℚ) * 100 + (j : ℚ) / (n : ℚ) * 100 ≤ 100 := by
      rw [div_mul_eq_mul_div, div_mul_eq_mul_div, div_add_div_same, div_le_iff₀ hnpos]
      nlinarith
    unfold round1q
    have hp := pyRoundQ_pair (10 * ((k : ℚ) / (n : ℚ) * 100)) (10 * ((j : ℚ) / (n : ℚ) * 100))
      (by linarith)
    linarith

/-- C5: is_within_service_area holds exactly when the distance from the
configured centre is at most the configured radius (boundary inclusive);
and a job posting whose address resolves to non-falsy coordinates that
fail this check is rejected with the outside-service-area error, which is
distinct from the unresolved-address error, and no posting is produced. -/
theorem service_area_boundary_and_rejection (cfg : ServiceArea) (f : Feature)
    (rest : List Feature) (emp : ℕ) (form : JobForm)
    (hlat : f.lat ≠ 0) (hlng : f.lon ≠ 0)
    (hout : ¬ calculate_distance cfg.center_lat cfg.center_lng f.lat f.lon ≤ cfg.max_radius) :
    (∀ lat lng : ℝ, is_within_service_area cfg lat lng = true ↔
      calculate_distance cfg.center_lat cfg.center_lng lat lng ≤ cfg.max_radius) ∧
    create_job cfg emp form (.ok (f :: rest)) = .error .outsideServiceArea ∧
    CreateJobError.outsideServiceArea ≠ CreateJobError.addressUnverified ∧
    ∀ p : JobPostingRec, create_job cfg emp form (.ok (f :: rest)) ≠ .ok p := by
  have hiff : ∀ lat lng : ℝ, is_within_service_area cfg lat lng = true ↔
      calculate_distance cfg.center_lat cfg.center_lng lat lng ≤ cfg.max_radius := by
    intro lat lng
    unfold is_within_service_area
    exact decide_eq_true_iff
  have hcj : create_job cfg emp form (.ok (f :: rest)) = .error .outsideServiceArea := by
    simp only [create_job, geocode_address]
    rw [if_neg (not_or.mpr ⟨hlat, hlng⟩)]
    rw [if_neg (fun hin => hout ((hiff f.lat f.lon).mp hin))]
  refine ⟨hiff, hcj, by simp, ?_⟩
  intro p hp
  rw [hcj] at hp
  cases hp

def wArea : ServiceArea := { center_lat := 0, center_lng := 0, max_radius := 50 }

def wJobForm : JobForm :=
  { title := "Cook", description := "Prepare meals", category := "Hospitality",
    employment_type := "full_time", salary_min := none, salary_max := none,
    street_address := "1 Market Rd", city := "Lagos", zip_code := "100001" }

def wFeaturePole : Feature := { lon := 90, lat := 90 }

theorem service_area_boundary_and_rejection_witness :
    create_job wArea 1 wJobForm (.ok [wFeaturePole]) = .error .outsideServiceArea ∧
    CreateJobError.outsideServiceArea ≠ CreateJobError.addressUnverified := by
  have h := service_area_boundary_and_rejection wArea wFeaturePole [] 1 wJobForm
    (by norm_num [wFeaturePole]) (by norm_num [wFeaturePole])
    (by
      show ¬ calculate_distance 0 0 90 90 ≤ 50
      rw [dist_origin_pole, not_le]
      unfold earthRadiusKm
      nlinarith [Real.pi_gt_three])
  exact ⟨h.2.1, h.2.2.1⟩

/-- C10: when geocoding succeeds but the first candidate has latitude 0.0
or longitude 0.0, both registration and job creation treat the result as an
unresolved address (0.0 is falsy in the Python guard) and abort with the
address-verification error, even though coordinates were returned. -/
theorem zero_coordinate_treated_unresolved (f : Feature) (rest : List Feature)
    (existingEmails : List String) (rform : RegForm) (cfg : ServiceArea) (emp : ℕ)
    (jform : JobForm)
    (hzero : f.lat = 0 ∨ f.lon = 0)
    (hpw : rform.password = rform.confirm_password)
    (hlen : ¬ rform.password.length < 8)
    (hmail : rform.email ∉ existingEmails) :
    geocode_address (.ok (f :: rest)) = (some f.lat, some f.lon) ∧
    register existingEmails rform (.ok (f :: rest)) = .error .addressUnverified ∧
    create_job cfg emp jform (.ok (f :: rest)) = .error .addressUnverified := by
  refine ⟨rfl, ?_, ?_⟩
  · unfold register
    rw [if_neg (not_not_intro hpw), if_neg hlen, if_neg hmail]
    simp only [geocode_address]
    rw [if_pos hzero]
  · simp only [create_job, geocode_address]
    rw [if_pos hzero]

def wRegForm : RegForm :=
  { email := "cook@example.com", password := "password1", confirm_password := "password1",
    role := "job_seeker", full_name := "A Cook", phone := "0800", address := "1 Market Rd",
    city := "Lagos", zip_code := "100001" }

def wFeatureZero : Feature := { lon := 3.5, lat := 0 }

theorem zero_coordinate_treated_unresolved_witness :
    geocode_address (.ok [wFeatureZero]) = (some wFeatureZero.lat, some wFeatureZero.lon) ∧
    register [] wRegForm (.ok [wFeatureZero]) = .error .addressUnverified ∧
    create_job wArea 1 wJobForm (.ok [wFeatureZero]) = .error .addressUnverified :=
  zero_coordinate_treated_unresolved wFeatureZero [] [] wRegForm wArea 1 wJobForm
    (Or.inl rfl) rfl (by decide) (by simp)

end LocalJobConnect
